import Mathlib

/- Shallow embedding of the cloudsignal/mqtt-client core: the token lifecycle
manager (src/TokenManager.ts), the request/response correlator
(src/RequestResponse.ts) and the connection-facing methods of
CloudSignalClient (client class published in examples/vanilla-js/README.md).
Wall-clock timestamps are modelled as Int milliseconds, JS Maps as
association lists keyed by their lookup key, and armed one-shot timers as
explicit lists so that arming and clearing are visible to theorems.
Promise resolutions and callback invocations are modelled as emitted events
or as fields of explicit result records. -/

namespace CloudSignal

/-- Result of the JS expression Math.round(a / b) for integers a and exact
positive divisor b (used for millisecond-to-second conversions). -/
def jsRoundDiv (a b : Int) : Int := Int.fdiv (2 * a + b) (2 * b)

/-! TokenManager (src/TokenManager.ts) -/

/-- Token lifecycle states, from TOKEN_STATES in src/TokenManager.ts. -/
inductive TokenState where
  | none
  | valid
  | expiring
  | expired
  | refreshing
  | error
  deriving DecidableEq, Repr

/-- The mqtt_credentials object of a token-service response:
a transport username/password pair. -/
structure MqttCredentials where
  username : String
  password : String
  deriving DecidableEq, Repr

/-- Body of a successful token-service response as consumed by
TokenManager._storeToken. The expires_at and refresh_recommended_at
fields are the millisecond epoch values of the parsed Date objects. -/
structure TokenResponse where
  token_id : String
  access_token : String
  mqtt_credentials : MqttCredentials
  user_email : String
  provider : String
  expires_at : Int
  refresh_recommended_at : Int
  deriving DecidableEq, Repr

/-- State of a TokenManager instance (constructor of src/TokenManager.ts).
The single JS timer handle this.refreshTimer is modelled as the list
refreshTimers of armed one-shot refresh timers (holding their delays), so
that the at-most-one-armed-timer property is a statement, not a typing
artifact: arming appends, cancelling empties the list. -/
structure TokenManager where
  autoRefresh : Bool
  refreshBufferSeconds : Nat
  maxRefreshRetries : Nat
  refreshRetryDelay : Nat
  tokenId : Option String
  accessToken : Option String
  mqttCredentials : Option MqttCredentials
  userEmail : Option String
  provider : Option String
  expiresAt : Option Int
  refreshRecommendedAt : Option Int
  state : TokenState
  refreshTimers : List Int
  refreshRetryCount : Nat
  isRefreshing : Bool
  deriving DecidableEq, Repr

/-- TokenManager.isExpired: true when there is no stored expiry, otherwise
Date.now() >= expiresAt.getTime(). -/
def TokenManager.isExpired (tm : TokenManager) (now : Int) : Bool :=
  match tm.expiresAt with
  | Option.none => true
  | Option.some e => now ≥ e

/-- TokenManager.getCredentials: null when no mqtt credentials are stored or
the token is expired, otherwise the stored username/password pair. -/
def TokenManager.getCredentials (tm : TokenManager) (now : Int) : Option MqttCredentials :=
  match tm.mqttCredentials with
  | Option.none => Option.none
  | Option.some c =>
    if tm.isExpired now then Option.none
    else Option.some ⟨c.username, c.password⟩

/-- TokenManager.getSecondsUntilExpiry: -1 when no expiry is stored,
otherwise Math.round((expiresAt - now) / 1000). -/
def TokenManager.getSecondsUntilExpiry (tm : TokenManager) (now : Int) : Int :=
  match tm.expiresAt with
  | Option.none => -1
  | Option.some e => jsRoundDiv (e - now) 1000

/-- Snapshot returned by TokenManager.getTokenInfo. -/
structure TokenInfo where
  tokenId : Option String
  accessToken : Option String
  mqttCredentials : Option MqttCredentials
  userEmail : Option String
  provider : Option String
  expiresAt : Option Int
  refreshRecommendedAt : Option Int
  state : TokenState
  isExpired : Bool
  secondsUntilExpiry : Int
  deriving DecidableEq, Repr

/-- TokenManager.getTokenInfo. -/
def TokenManager.getTokenInfo (tm : TokenManager) (now : Int) : TokenInfo :=
  { tokenId := tm.tokenId
    accessToken := tm.accessToken
    mqttCredentials := tm.mqttCredentials
    userEmail := tm.userEmail
    provider := tm.provider
    expiresAt := tm.expiresAt
    refreshRecommendedAt := tm.refreshRecommendedAt
    state := tm.state
    isExpired := tm.isExpired now
    secondsUntilExpiry := tm.getSecondsUntilExpiry now }

/-- TokenManager._setState (the onStateChange callback is not modelled;
only the stored state field changes). -/
def TokenManager.setState (tm : TokenManager) (s : TokenState) : TokenManager :=
  { tm with state := s }

/-- TokenManager._cancelRefresh: clearTimeout on the armed refresh timer. -/
def TokenManager.cancelRefresh (tm : TokenManager) : TokenManager :=
  { tm with refreshTimers := [] }

/-- Scheduling outcome of TokenManager._scheduleRefresh: nothing scheduled,
an immediate refreshToken() invocation, or a one-shot timer armed for the
given delay. -/
inductive ScheduleAction where
  | noSchedule
  | immediateRefresh
  | timerArmed (delay : Int)
  deriving DecidableEq, Repr

/-- TokenManager._scheduleRefresh: cancel any existing timer; bail out when
no refreshRecommendedAt is stored or autoRefresh is off; compute
delay = Math.max(0, refreshTime - now); refresh immediately when the delay
is zero, otherwise arm a one-shot timer for the delay. -/
def TokenManager.scheduleRefresh (tm : TokenManager) (now : Int) :
    TokenManager × ScheduleAction :=
  let tm1 := tm.cancelRefresh
  match tm1.refreshRecommendedAt with
  | Option.none => (tm1, ScheduleAction.noSchedule)
  | Option.some rra =>
    if !tm1.autoRefresh then (tm1, ScheduleAction.noSchedule)
    else
      let delay : Int := max 0 (rra - now)
      if delay ≤ 0 then (tm1, ScheduleAction.immediateRefresh)
      else ({ tm1 with refreshTimers := tm1.refreshTimers ++ [delay] },
            ScheduleAction.timerArmed delay)

/-- TokenManager._storeToken: store the response fields, transition to
valid, and schedule the auto-refresh when enabled. -/
def TokenManager.storeToken (tm : TokenManager) (r : TokenResponse) (now : Int) :
    TokenManager × ScheduleAction :=
  let tm1 := { tm with
    tokenId := Option.some r.token_id
    accessToken := Option.some r.access_token
    mqttCredentials := Option.some r.mqtt_credentials
    userEmail := Option.some r.user_email
    provider := Option.some r.provider
    expiresAt := Option.some r.expires_at
    refreshRecommendedAt := Option.some r.refresh_recommended_at }
  let tm2 := tm1.setState TokenState.valid
  if tm2.autoRefresh then tm2.scheduleRefresh now
  else (tm2, ScheduleAction.noSchedule)

/-- Observable actions of the refresh-timer callback armed by
TokenManager._scheduleRefresh, in invocation order. -/
inductive RefreshFireEvent where
  | stateExpiring
  | expiringCallback (remainingSeconds : Int)
  | refreshInvoked
  deriving DecidableEq, Repr

/-- Callback body of the timer armed by TokenManager._scheduleRefresh:
transition to expiring, invoke onTokenExpiring with
Math.round((expiresAt - now) / 1000), then invoke refreshToken().
The fired one-shot timer is no longer armed. On a null expiresAt the
source would throw (none case); every armed timer follows a store, which
always sets the expiry. -/
def TokenManager.refreshTimerFire (tm : TokenManager) (now : Int) :
    Option (TokenManager × List RefreshFireEvent) :=
  match tm.expiresAt with
  | Option.none => Option.none
  | Option.some e =>
    Option.some ({ tm.setState TokenState.expiring with refreshTimers := [] },
      [RefreshFireEvent.stateExpiring,
       RefreshFireEvent.expiringCallback (jsRoundDiv (e - now) 1000),
       RefreshFireEvent.refreshInvoked])

/-- Synchronous first phase of TokenManager.refreshToken, up to the await on
the network call: throw when no token is stored, return the current token
info without any network call when a refresh is already in flight, else
mark the refresh in flight, transition to refreshing and issue the single
network call to /v2/tokens/refresh. -/
inductive RefreshBegin where
  | noToken
  | alreadyRefreshing (info : TokenInfo)
  | started (tm1 : TokenManager)
  deriving DecidableEq, Repr

/-- Guard section of TokenManager.refreshToken (lines 335-347). -/
def TokenManager.refreshBegin (tm : TokenManager) (now : Int) : RefreshBegin :=
  match tm.tokenId, tm.accessToken with
  | Option.some _, Option.some _ =>
    if tm.isRefreshing then RefreshBegin.alreadyRefreshing (tm.getTokenInfo now)
    else RefreshBegin.started (({ tm with isRefreshing := true }).setState TokenState.refreshing)
  | _, _ => RefreshBegin.noToken

/-- Number of network calls to /v2/tokens/refresh issued by one
refreshToken() invocation: one on the started path, zero otherwise. -/
def TokenManager.refreshNetworkCalls (tm : TokenManager) (now : Int) : Nat :=
  match tm.refreshBegin now with
  | RefreshBegin.started _ => 1
  | _ => 0

/-- Success continuation of TokenManager.refreshToken: store the response,
reset the retry counter, clear the in-flight flag (finally block) and
return getTokenInfo(). -/
def TokenManager.refreshCompleteSuccess (tm : TokenManager) (r : TokenResponse)
    (now : Int) : TokenManager × ScheduleAction × TokenInfo :=
  let (tm1, act) := tm.storeToken r now
  let tm2 := { tm1 with refreshRetryCount := 0, isRefreshing := false }
  (tm2, act, tm2.getTokenInfo now)

/-- Failure continuation of TokenManager.refreshToken: while
refreshRetryCount < maxRefreshRetries, increment the counter and schedule a
retry after refreshRetryDelay (the finally block and the retry timer both
clear isRefreshing); once the retries are exhausted, transition to error
and surface the REFRESH_FAILED classification via onTokenError. -/
inductive RefreshFailStep where
  | retryScheduled (tm1 : TokenManager) (delayMs : Nat)
  | refreshFailedSurfaced (tm1 : TokenManager)
  deriving DecidableEq, Repr

/-- Catch block of TokenManager.refreshToken (lines 364-389). -/
def TokenManager.refreshFail (tm : TokenManager) : RefreshFailStep :=
  if tm.refreshRetryCount < tm.maxRefreshRetries then
    RefreshFailStep.retryScheduled
      { tm with refreshRetryCount := tm.refreshRetryCount + 1, isRefreshing := false }
      tm.refreshRetryDelay
  else
    RefreshFailStep.refreshFailedSurfaced
      (({ tm with isRefreshing := false }).setState TokenState.error)

/-- Observable events of a refresh episode in which every network call
fails: each attempt issues one network call; a retry is scheduled after the
fixed delay, or the REFRESH_FAILED classification is surfaced. -/
inductive EpisodeEvent where
  | networkCall
  | retryDelay (ms : Nat)
  | refreshFailedSurfaced
  deriving DecidableEq, Repr

/-- Run up to fuel refreshToken() attempts, every network call failing: each
attempt passes through refreshBegin (issuing its network call) and then the
catch block; after a scheduled retry fires, refreshToken() is re-entered. -/
def TokenManager.runFailingRefresh (tm : TokenManager) (now : Int) :
    Nat → TokenManager × List EpisodeEvent
  | 0 => (tm, [])
  | Nat.succ k =>
    match tm.refreshBegin now with
    | RefreshBegin.started tm1 =>
      match tm1.refreshFail with
      | RefreshFailStep.retryScheduled tm2 d =>
        let r := tm2.runFailingRefresh now k
        (r.1, EpisodeEvent.networkCall :: EpisodeEvent.retryDelay d :: r.2)
      | RefreshFailStep.refreshFailedSurfaced tm2 =>
        (tm2, [EpisodeEvent.networkCall, EpisodeEvent.refreshFailedSurfaced])
    | _ => (tm, [])

/-! RequestResponseHandler (src/RequestResponse.ts) -/

/-- Per-request states, from REQUEST_STATES in src/RequestResponse.ts. -/
inductive RequestState where
  | pending
  | completed
  | timeout
  | error
  | cancelled
  deriving DecidableEq, Repr

/-- One entry of the pendingRequests map (the resolve/reject continuations
are modelled by the handler's emitted Outcome events). -/
structure PendingRequest where
  correlationId : String
  topic : String
  createdAt : Int
  deriving DecidableEq, Repr

/-- Settlement of a pending call's promise: resolved by a matching reply,
rejected by the timeout timer, or rejected by cancellation. -/
inductive Outcome where
  | resolved (cid : String)
  | rejectedTimeout (cid : String)
  | rejectedCancelled (cid : String)
  deriving DecidableEq, Repr

/-- Correlation id a settlement refers to. -/
def outcomeCid : Outcome → String
  | Outcome.resolved c => c
  | Outcome.rejectedTimeout c => c
  | Outcome.rejectedCancelled c => c

/-- MQTT 5 packet properties consulted by handleMessage. A decoded empty
string is identified with an absent property, mirroring the JS falsiness
checks the source applies at every fallback step. -/
structure PacketProperties where
  correlationDataStr : String
  userCorrelationId : String
  deriving DecidableEq, Repr

/-- An inbound message as seen by handleMessage: its topic, its packet
properties, and the correlationId/correlation_id field of its JSON payload
(empty when the payload is not JSON or carries no such field). -/
structure InboundMessage where
  topic : String
  props : PacketProperties
  payloadCorrelationId : String
  deriving DecidableEq, Repr

/-- State of a RequestResponseHandler instance. The pendingRequests Map is
an association list keyed by correlationId; armedTimers lists the
correlation ids whose one-shot timeout timer is armed (not yet cleared and
not yet fired); outcomes records promise settlements in order. -/
structure Handler where
  responseTopic : String
  requestTimeout : Nat
  pending : List PendingRequest
  armedTimers : List String
  outcomes : List Outcome
  statsRequestsSent : Nat
  statsResponsesReceived : Nat
  statsTimeouts : Nat
  deriving DecidableEq, Repr

/-- Number of pendingRequests entries keyed by cid (a Map holds at most
one; the list model tracks the count explicitly). -/
def Handler.pendingCount (h : Handler) (cid : String) : Nat :=
  (h.pending.filter (fun p => p.correlationId == cid)).length

/-- Number of settlements emitted for cid. -/
def Handler.outcomeCount (h : Handler) (cid : String) : Nat :=
  (h.outcomes.filter (fun o => outcomeCid o == cid)).length

/-- Registration step of RequestResponseHandler.request (lines 254-290):
create the pending record, arm its timeout timer, and put it in the map. -/
def Handler.registerRequest (h : Handler) (cid topic : String) (createdAt : Int) :
    Handler :=
  { h with
    pending := h.pending ++ [⟨cid, topic, createdAt⟩]
    armedTimers := cid :: h.armedTimers
    statsRequestsSent := h.statsRequestsSent + 1 }

/-- Correlation-id extraction of handleMessage (lines 139-160): MQTT 5
correlationData first, then the userProperties fallback, then — only for
messages on the handler's own response topic — the JSON payload field. -/
def Handler.extractCorrelationId (h : Handler) (m : InboundMessage) : String :=
  let c1 := m.props.correlationDataStr
  let c2 := if c1 = "" then m.props.userCorrelationId else c1
  if c2 = "" ∧ m.topic = h.responseTopic then m.payloadCorrelationId else c2

/-- RequestResponseHandler.handleMessage: extract a correlation id; when
none, or no pending call matches, return false leaving the state alone;
otherwise clear the call's timeout timer, delete it from the map, record
the resolution and return true (the message is claimed). -/
def Handler.handleMessage (h : Handler) (m : InboundMessage) : Bool × Handler :=
  let cid := h.extractCorrelationId m
  if cid = "" then (false, h)
  else
    match h.pending.find? (fun p => p.correlationId == cid) with
    | Option.none => (false, h)
    | Option.some _ =>
      (true,
        { h with
          armedTimers := h.armedTimers.filter (fun t => t ≠ cid)
          pending := h.pending.filter (fun p => p.correlationId ≠ cid)
          statsResponsesReceived := h.statsResponsesReceived + 1
          outcomes := h.outcomes ++ [Outcome.resolved cid] })

/-- Firing of the one-shot timeout timer armed for cid by request (lines
269-287): a cleared timer never runs; a fired timer is no longer armed; the
callback body is a no-op unless the pendingRequests map still holds cid, in
which case the entry is deleted and the promise rejected with the
RequestTimeout error. -/
def Handler.timeoutFire (h : Handler) (cid : String) : Handler :=
  if cid ∈ h.armedTimers then
    let h1 := { h with armedTimers := h.armedTimers.filter (fun t => t ≠ cid) }
    if h1.pending.any (fun p => p.correlationId == cid) then
      { h1 with
        pending := h1.pending.filter (fun p => p.correlationId ≠ cid)
        statsTimeouts := h1.statsTimeouts + 1
        outcomes := h1.outcomes ++ [Outcome.rejectedTimeout cid] }
    else h1
  else h

/-- RequestResponseHandler.cancelRequest: false on an absent entry (no-op);
otherwise clear the timer, delete the entry and reject with Cancelled. -/
def Handler.cancelRequest (h : Handler) (cid : String) : Bool × Handler :=
  match h.pending.find? (fun p => p.correlationId == cid) with
  | Option.none => (false, h)
  | Option.some _ =>
    (true,
      { h with
        armedTimers := h.armedTimers.filter (fun t => t ≠ cid)
        pending := h.pending.filter (fun p => p.correlationId ≠ cid)
        outcomes := h.outcomes ++ [Outcome.rejectedCancelled cid] })

/-- RequestResponseHandler.cancelAllRequests: clear every pending entry's
timer, reject each with Cancelled, and empty the map. -/
def Handler.cancelAllRequests (h : Handler) : Nat × Handler :=
  (h.pending.length,
    { h with
      armedTimers := h.armedTimers.filter
        (fun t => !(h.pending.any (fun p => p.correlationId == t)))
      pending := []
      outcomes := h.outcomes ++
        h.pending.map (fun p => Outcome.rejectedCancelled p.correlationId) })

/-- Events that can hit a handler after a request is registered: an inbound
message delivery, the firing of an armed timeout timer, an explicit
cancellation, or a bulk cancellation. -/
inductive RRStep where
  | deliver (m : InboundMessage)
  | fireTimeout (cid : String)
  | cancel (cid : String)
  | cancelAll
  deriving DecidableEq, Repr

/-- Apply one event to the handler state. -/
def Handler.applyStep (h : Handler) : RRStep → Handler
  | RRStep.deliver m => (h.handleMessage m).2
  | RRStep.fireTimeout cid => h.timeoutFire cid
  | RRStep.cancel cid => (h.cancelRequest cid).2
  | RRStep.cancelAll => h.cancelAllRequests.2

/-- Apply a sequence of events to the handler state. -/
def Handler.runSteps (h : Handler) : List RRStep → Handler
  | [] => h
  | s :: rest => (h.applyStep s).runSteps rest

/-! CloudSignalClient (examples/vanilla-js/README.md) -/

/-- Connection states, from CONNECTION_STATES of CloudSignalClient. -/
inductive ConnectionState where
  | disconnected
  | connecting
  | connected
  | reconnecting
  | disconnecting
  | error
  deriving DecidableEq, Repr

/-- Character-list test that sub occurs at the start of l. -/
def startsWithChars : List Char → List Char → Bool
  | [], _ => true
  | _ :: _, [] => false
  | a :: as, b :: bs => a == b && startsWithChars as bs

/-- Substring occurrence test used to model String.prototype.includes. -/
def containsChars (sub : List Char) : List Char → Bool
  | [] => sub.isEmpty
  | c :: cs => startsWithChars sub (c :: cs) || containsChars sub cs

/-- Model of error.message.includes(sub). -/
def containsSub (s sub : String) : Bool := containsChars sub.data s.data

/-- Bad-credentials signature match of the transport error handler
(client 'error' event, lines 576-578). -/
def isAuthErrorMessage (msg : String) : Bool :=
  containsSub msg "Not authorized" ||
  containsSub msg "Bad User Name or Password" ||
  containsSub msg "Connection refused: Bad username or password"

/-- Observable effects of one run of the client 'error' event handler
(lines 573-601). -/
structure ErrorHandlingResult where
  connectionState : ConnectionState
  forcedClose : Bool
  authCallbackInvoked : Bool
  rejectedWithAuthFailure : Bool
  rejectedGeneric : Bool
  deriving DecidableEq, Repr

/-- Body of the client 'error' event handler: an auth-signature error
transitions to error, force-closes the transport unless
reconnectOnAuthError is set, invokes onAuthError and rejects the connect
promise with the authentication-failure error; ECONNREFUSED/ETIMEDOUT
errors transition to error and reject generically; anything else rejects
generically without a state change. -/
def onErrorEvent (reconnectOnAuthError : Bool) (prevState : ConnectionState)
    (msg : String) (codeConnRefusedOrTimedOut : Bool) : ErrorHandlingResult :=
  if isAuthErrorMessage msg then
    { connectionState := ConnectionState.error
      forcedClose := !reconnectOnAuthError
      authCallbackInvoked := true
      rejectedWithAuthFailure := true
      rejectedGeneric := false }
  else if codeConnRefusedOrTimedOut then
    { connectionState := ConnectionState.error
      forcedClose := false
      authCallbackInvoked := false
      rejectedWithAuthFailure := false
      rejectedGeneric := true }
  else
    { connectionState := prevState
      forcedClose := false
      authCallbackInvoked := false
      rejectedWithAuthFailure := false
      rejectedGeneric := true }

/-- Underlying mqtt.js transport's automatic reconnect loop, reduced to
what the supervisor observes: attempts increment a counter and stop for
good once end(true) has been called. -/
structure Transport where
  ended : Bool
  reconnectAttempts : Nat
  deriving DecidableEq, Repr

/-- One reconnect attempt of the transport's internal retry loop; a closed
transport attempts nothing. -/
def Transport.reconnectStep (t : Transport) : Transport :=
  if t.ended then t else { t with reconnectAttempts := t.reconnectAttempts + 1 }

/-- Let the transport's retry loop run for n ticks. -/
def Transport.runReconnects (t : Transport) : Nat → Transport
  | 0 => t
  | Nat.succ n => t.reconnectStep.runReconnects n

/-- Effect of the error handler on the transport: client.end(true) when the
handler force-closed it. -/
def Transport.applyError (t : Transport) (r : ErrorHandlingResult) : Transport :=
  if r.forcedClose then { t with ended := true } else t

/-- Offline-queue configuration slice of the client config. -/
structure OfflineConfig where
  enableOfflineQueue : Bool
  maxOfflineQueueSize : Nat
  dropOldestOnQueueFull : Bool
  deriving DecidableEq, Repr

/-- One entry of the client's offlineQueue. -/
structure QueuedMessage where
  topic : String
  message : String
  qos : Nat
  retain : Bool
  deriving DecidableEq, Repr

/-- Offline branch of CloudSignalClient.transmit (lines 951-969): with the
queue enabled, a full bounded queue either drops its oldest entry (shift)
before the push or discards the new message; otherwise the message is
appended. With the queue disabled the message is silently discarded. -/
def transmitOffline (cfg : OfflineConfig) (q : List QueuedMessage)
    (m : QueuedMessage) : List QueuedMessage :=
  if cfg.enableOfflineQueue then
    if 0 < cfg.maxOfflineQueueSize ∧ cfg.maxOfflineQueueSize ≤ q.length then
      if cfg.dropOldestOnQueueFull then q.drop 1 ++ [m]
      else q
    else q ++ [m]
  else q

/-- Sequence of transmit() calls made while disconnected. -/
def transmitAllOffline (cfg : OfflineConfig) (q : List QueuedMessage)
    (ms : List QueuedMessage) : List QueuedMessage :=
  ms.foldl (transmitOffline cfg) q

/-- One ongoingSubscriptions entry: granted QoS and whether a per-topic
callback was registered. -/
structure SubscriptionEntry where
  qos : Nat
  hasCallback : Bool
  deriving DecidableEq, Repr

/-- Subscription-facing slice of the client state. -/
structure SubscriptionState where
  connected : Bool
  defaultSubscribeQos : Nat
  subs : List (String × SubscriptionEntry)
  deriving DecidableEq, Repr

/-- Synchronous part of CloudSignalClient.subscribe (lines 806-826): the
promise rejects when not connected; resolves immediately without a
protocol call when the topic is already in the record; otherwise the
protocol-level subscribe call is issued at the resolved QoS. -/
inductive SubscribeStartResult where
  | rejectedNotConnected
  | resolvedAlreadySubscribed (qos : Nat)
  | protocolSubscribeIssued (qos : Nat)
  deriving DecidableEq, Repr

/-- Guard section of CloudSignalClient.subscribe. -/
def SubscriptionState.subscribeStart (s : SubscriptionState) (topic : String)
    (optQos : Option Nat) : SubscribeStartResult :=
  let qos := optQos.getD s.defaultSubscribeQos
  if !s.connected then SubscribeStartResult.rejectedNotConnected
  else if s.subs.any (fun e => e.1 == topic) then
    SubscribeStartResult.resolvedAlreadySubscribed qos
  else SubscribeStartResult.protocolSubscribeIssued qos

/-- Grant callback of CloudSignalClient.subscribe (lines 831-837): only now
is the entry recorded in ongoingSubscriptions. -/
def SubscriptionState.subscribeGrant (s : SubscriptionState) (topic : String)
    (qos : Nat) (hasCallback : Bool) : SubscriptionState :=
  { s with subs := s.subs ++ [(topic, ⟨qos, hasCallback⟩)] }

/-- Number of protocol-level subscribe calls one subscribe() invocation
issues. -/
def protocolCallCount : SubscribeStartResult → Nat
  | SubscribeStartResult.protocolSubscribeIssued _ => 1
  | _ => 0

/-- Whether the subscribe() promise resolves successfully (immediately, or
upon the broker's grant). -/
def resolvesSuccessfully : SubscribeStartResult → Bool
  | SubscribeStartResult.rejectedNotConnected => false
  | _ => true

/-- Listener-facing slice of the client used by _handleMessage: the
optional request handler, the topics whose subscription entry carries a
per-topic callback, and the number of registered global callbacks. -/
structure ClientDispatch where
  requestHandler : Option Handler
  topicCallbackTopics : List String
  globalCallbackCount : Nat
  deriving DecidableEq, Repr

/-- One delivery to application code. -/
inductive Delivery where
  | topicCallback (topic : String)
  | globalCallback (idx : Nat)
  deriving DecidableEq, Repr

/-- Application-listener deliveries of _handleMessage when the message is
not claimed: the per-topic callback when one is registered, then every
global callback in registration order. -/
def ClientDispatch.appDeliveries (c : ClientDispatch) (m : InboundMessage) :
    List Delivery :=
  (if m.topic ∈ c.topicCallbackTopics then [Delivery.topicCallback m.topic] else [])
    ++ (List.range c.globalCallbackCount).map Delivery.globalCallback

/-- CloudSignalClient._handleMessage (lines 1054-1071): offer the message
to the request handler first; when it claims the message, deliver it to no
application listener; otherwise run the per-topic callback (if any) and
then every global callback. -/
def ClientDispatch.handleMessage (c : ClientDispatch) (m : InboundMessage) :
    Bool × List Delivery × ClientDispatch :=
  match c.requestHandler with
  | Option.some h =>
    let r := h.handleMessage m
    if r.1 then (true, [], { c with requestHandler := Option.some r.2 })
    else (false, c.appDeliveries m, { c with requestHandler := Option.some r.2 })
  | Option.none => (false, c.appDeliveries m, c)

/-- Credential-consuming tail of CloudSignalClient.connectWithToken (lines
683-693): the result of getCredentials() is dereferenced with no null
check, so a null result raises a TypeError instead of a classified error;
otherwise connect() receives the stored username and password. -/
inductive ConnectWithTokenStep where
  | nullDereference
  | connectCalled (username password : String)
  deriving DecidableEq, Repr

/-- Tail of connectWithToken after the create/exchange call stored the
token. -/
def connectWithTokenAfterStore (tm : TokenManager) (now : Int) :
    ConnectWithTokenStep :=
  match tm.getCredentials now with
  | Option.none => ConnectWithTokenStep.nullDereference
  | Option.some c => ConnectWithTokenStep.connectCalled c.username c.password

/-- Settlement invariant of one registered pending call: either it is still
pending with its timeout timer armed and no settlement emitted yet, or it
has been settled exactly once, is gone from the pendingRequests map and
its timer is no longer armed. -/
def Handler.callInvariant (h : Handler) (cid : String) : Prop :=
  (h.pendingCount cid = 1 ∧ cid ∈ h.armedTimers ∧ h.outcomeCount cid = 0) ∨
  (h.pendingCount cid = 0 ∧ cid ∉ h.armedTimers ∧ h.outcomeCount cid = 1)

/-- A pending call that has been settled: exactly one outcome, entry gone,
timer gone. -/
def Handler.callSettled (h : Handler) (cid : String) : Prop :=
  h.pendingCount cid = 0 ∧ cid ∉ h.armedTimers ∧ h.outcomeCount cid = 1

end CloudSignal

namespace CloudSignal

/-- C7: TokenManager.getCredentials returns null exactly when the stored
credential is absent or expired; otherwise it returns the stored
username/password pair; and a credential with no expiry timestamp counts
as already expired, so getCredentials returns null for it. -/
theorem C7_getCredentials_null_iff (tm : TokenManager) (now : Int) :
    (tm.getCredentials now = Option.none ↔
      (tm.mqttCredentials = Option.none ∨ tm.isExpired now = true)) ∧
    (∀ c, tm.mqttCredentials = Option.some c → tm.isExpired now = false →
      tm.getCredentials now = Option.some ⟨c.username, c.password⟩) ∧
    (tm.expiresAt = Option.none → tm.getCredentials now = Option.none) := by
  refine ⟨?_, ?_, ?_⟩
  · unfold TokenManager.getCredentials
    cases h : tm.mqttCredentials with
    | none => simp
    | some c =>
      simp only [Option.some.injEq]
      by_cases he : tm.isExpired now = true
      · simp [he]
      · simp [he]
  · intro c hc he
    unfold TokenManager.getCredentials
    rw [hc, he]
    simp
  · intro he
    unfold TokenManager.getCredentials
    cases h : tm.mqttCredentials with
    | none => simp
    | some c =>
      have : tm.isExpired now = true := by
        unfold TokenManager.isExpired
        rw [he]
      simp [this]

/-- Witness for C7 at a concrete manager state. -/
theorem C7_getCredentials_null_iff_witness :
    ({ autoRefresh := true, refreshBufferSeconds := 60, maxRefreshRetries := 3,
       refreshRetryDelay := 5000, tokenId := Option.some "t",
       accessToken := Option.some "a",
       mqttCredentials := Option.some ⟨"u", "p"⟩,
       userEmail := Option.none, provider := Option.none,
       expiresAt := Option.some 1000, refreshRecommendedAt := Option.some 500,
       state := TokenState.valid, refreshTimers := [], refreshRetryCount := 0,
       isRefreshing := false } : TokenManager).getCredentials 0 =
      Option.some ⟨"u", "p"⟩ := by
  have h := C7_getCredentials_null_iff
    { autoRefresh := true, refreshBufferSeconds := 60, maxRefreshRetries := 3,
      refreshRetryDelay := 5000, tokenId := Option.some "t",
      accessToken := Option.some "a",
      mqttCredentials := Option.some ⟨"u", "p"⟩,
      userEmail := Option.none, provider := Option.none,
      expiresAt := Option.some 1000, refreshRecommendedAt := Option.some 500,
      state := TokenState.valid, refreshTimers := [], refreshRetryCount := 0,
      isRefreshing := false } 0
  exact h.2.1 ⟨"u", "p"⟩ rfl (by decide)

/-- Fields of the manager state right after _storeToken, whatever the
scheduling branch did. -/
theorem storeToken_fst_fields (tm : TokenManager) (r : TokenResponse) (now : Int) :
    ((tm.storeToken r now).1).mqttCredentials = Option.some r.mqtt_credentials ∧
    ((tm.storeToken r now).1).expiresAt = Option.some r.expires_at ∧
    ((tm.storeToken r now).1).tokenId = Option.some r.token_id ∧
    ((tm.storeToken r now).1).accessToken = Option.some r.access_token ∧
    ((tm.storeToken r now).1).state = TokenState.valid := by
  unfold TokenManager.storeToken TokenManager.scheduleRefresh
    TokenManager.cancelRefresh TokenManager.setState
  by_cases h : tm.autoRefresh = true
  · by_cases hd : r.refresh_recommended_at ≤ now <;> simp [h, hd]
  · simp [h]

/-- C10: connectWithToken dereferences the result of getCredentials()
without a null check. Whenever the stored credential holds no
mqtt_credentials or reads as expired, getCredentials returns null and the
tail of connectWithToken hits a null dereference instead of a classified
error; under the precondition that transport credentials are stored and
the expiry is strictly in the future, the null branch is unreachable and
connect() receives the stored username and password — in particular right
after any successful store whose expiry lies strictly in the future. -/
theorem C10_connectWithToken_null_deref :
    (∀ (tm : TokenManager) (now : Int),
      tm.mqttCredentials = Option.none ∨ tm.isExpired now = true →
      connectWithTokenAfterStore tm now = ConnectWithTokenStep.nullDereference) ∧
    (∀ (tm : TokenManager) (now : Int) (c : MqttCredentials) (e : Int),
      tm.mqttCredentials = Option.some c → tm.expiresAt = Option.some e →
      now < e →
      connectWithTokenAfterStore tm now =
        ConnectWithTokenStep.connectCalled c.username c.password) ∧
    (∀ (tm : TokenManager) (r : TokenResponse) (now : Int),
      now < r.expires_at →
      connectWithTokenAfterStore ((tm.storeToken r now).1) now =
        ConnectWithTokenStep.connectCalled
          r.mqtt_credentials.username r.mqtt_credentials.password) := by
  have hmain : ∀ (tm : TokenManager) (now : Int) (c : MqttCredentials) (e : Int),
      tm.mqttCredentials = Option.some c → tm.expiresAt = Option.some e →
      now < e →
      connectWithTokenAfterStore tm now =
        ConnectWithTokenStep.connectCalled c.username c.password := by
    intro tm now c e hc he hlt
    unfold connectWithTokenAfterStore TokenManager.getCredentials
    have hexp : tm.isExpired now = false := by
      unfold TokenManager.isExpired
      rw [he]
      simp only [decide_eq_false_iff_not]
      omega
    rw [hc, hexp]
    simp
  refine ⟨?_, hmain, ?_⟩
  · intro tm now hcase
    unfold connectWithTokenAfterStore TokenManager.getCredentials
    rcases hcase with h | h
    · rw [h]
    · cases hc : tm.mqttCredentials with
      | none => simp
      | some c => rw [h]; simp
  · intro tm r now hlt
    obtain ⟨hc, he, -, -, -⟩ := storeToken_fst_fields tm r now
    exact hmain _ now r.mqtt_credentials r.expires_at hc he hlt

/-- Witness for C10: a manager with no stored credentials hits the null
dereference, and one holding live credentials reaches connect() with them. -/
theorem C10_connectWithToken_null_deref_witness :
    connectWithTokenAfterStore
      { autoRefresh := true, refreshBufferSeconds := 60, maxRefreshRetries := 3,
        refreshRetryDelay := 5000, tokenId := Option.none,
        accessToken := Option.none, mqttCredentials := Option.none,
        userEmail := Option.none, provider := Option.none,
        expiresAt := Option.none, refreshRecommendedAt := Option.none,
        state := TokenState.none, refreshTimers := [], refreshRetryCount := 0,
        isRefreshing := false } 0 = ConnectWithTokenStep.nullDereference ∧
    connectWithTokenAfterStore
      { autoRefresh := true, refreshBufferSeconds := 60, maxRefreshRetries := 3,
        refreshRetryDelay := 5000, tokenId := Option.some "t",
        accessToken := Option.some "a",
        mqttCredentials := Option.some ⟨"u", "p"⟩,
        userEmail := Option.none, provider := Option.none,
        expiresAt := Option.some 1000, refreshRecommendedAt := Option.some 500,
        state := TokenState.valid, refreshTimers := [], refreshRetryCount := 0,
        isRefreshing := false } 0 = ConnectWithTokenStep.connectCalled "u" "p" := by
  constructor
  · exact C10_connectWithToken_null_deref.1 _ 0 (Or.inl rfl)
  · exact C10_connectWithToken_null_deref.2.1 _ 0 ⟨"u", "p"⟩ 1000 rfl rfl (by decide)

/-- C2 counterexample: while one refresh is in flight, a second
refreshToken() call resolves immediately with the token info current at
the time of the call, which differs from the result the in-flight refresh
later resolves with (the stored expiry changes) — so the concurrent
callers do not all receive the same resolved result, refuting the
"all N callers receive the same resolved result" part of the claim. The
"exactly one network call" part holds: the joining caller issues none. -/
theorem C2_single_flight_counterexample :
    TokenManager.refreshBegin
      { autoRefresh := false, refreshBufferSeconds := 60, maxRefreshRetries := 3,
        refreshRetryDelay := 5000, tokenId := Option.some "tok",
        accessToken := Option.some "acc",
        mqttCredentials := Option.some ⟨"u", "p"⟩,
        userEmail := Option.none, provider := Option.none,
        expiresAt := Option.some 1000, refreshRecommendedAt := Option.some 500,
        state := TokenState.valid, refreshTimers := [], refreshRetryCount := 0,
        isRefreshing := false } 0 =
      RefreshBegin.started
        { autoRefresh := false, refreshBufferSeconds := 60, maxRefreshRetries := 3,
          refreshRetryDelay := 5000, tokenId := Option.some "tok",
          accessToken := Option.some "acc",
          mqttCredentials := Option.some ⟨"u", "p"⟩,
          userEmail := Option.none, provider := Option.none,
          expiresAt := Option.some 1000, refreshRecommendedAt := Option.some 500,
          state := TokenState.refreshing, refreshTimers := [], refreshRetryCount := 0,
          isRefreshing := true } ∧
    TokenManager.refreshNetworkCalls
      { autoRefresh := false, refreshBufferSeconds := 60, maxRefreshRetries := 3,
        refreshRetryDelay := 5000, tokenId := Option.some "tok",
        accessToken := Option.some "acc",
        mqttCredentials := Option.some ⟨"u", "p"⟩,
        userEmail := Option.none, provider := Option.none,
        expiresAt := Option.some 1000, refreshRecommendedAt := Option.some 500,
        state := TokenState.refreshing, refreshTimers := [], refreshRetryCount := 0,
        isRefreshing := true } 0 = 0 ∧
    TokenManager.refreshBegin
      { autoRefresh := false, refreshBufferSeconds := 60, maxRefreshRetries := 3,
        refreshRetryDelay := 5000, tokenId := Option.some "tok",
        accessToken := Option.some "acc",
        mqttCredentials := Option.some ⟨"u", "p"⟩,
        userEmail := Option.none, provider := Option.none,
        expiresAt := Option.some 1000, refreshRecommendedAt := Option.some 500,
        state := TokenState.refreshing, refreshTimers := [], refreshRetryCount := 0,
        isRefreshing := true } 0 =
      RefreshBegin.alreadyRefreshing
        (TokenManager.getTokenInfo
          { autoRefresh := false, refreshBufferSeconds := 60, maxRefreshRetries := 3,
            refreshRetryDelay := 5000, tokenId := Option.some "tok",
            accessToken := Option.some "acc",
            mqttCredentials := Option.some ⟨"u", "p"⟩,
            userEmail := Option.none, provider := Option.none,
            expiresAt := Option.some 1000, refreshRecommendedAt := Option.some 500,
            state := TokenState.refreshing, refreshTimers := [], refreshRetryCount := 0,
            isRefreshing := true } 0) ∧
    (TokenManager.refreshCompleteSuccess
      { autoRefresh := false, refreshBufferSeconds := 60, maxRefreshRetries := 3,
        refreshRetryDelay := 5000, tokenId := Option.some "tok",
        accessToken := Option.some "acc",
        mqttCredentials := Option.some ⟨"u", "p"⟩,
        userEmail := Option.none, provider := Option.none,
        expiresAt := Option.some 1000, refreshRecommendedAt := Option.some 500,
        state := TokenState.refreshing, refreshTimers := [], refreshRetryCount := 0,
        isRefreshing := true }
      { token_id := "tok", access_token := "acc2",
        mqtt_credentials := ⟨"u2", "p2"⟩, user_email := "e", provider := "native",
        expires_at := 2000, refresh_recommended_at := 1500 } 0).2.2 ≠
    TokenManager.getTokenInfo
      { autoRefresh := false, refreshBufferSeconds := 60, maxRefreshRetries := 3,
        refreshRetryDelay := 5000, tokenId := Option.some "tok",
        accessToken := Option.some "acc",
        mqttCredentials := Option.some ⟨"u", "p"⟩,
        userEmail := Option.none, provider := Option.none,
        expiresAt := Option.some 1000, refreshRecommendedAt := Option.some 500,
        state := TokenState.refreshing, refreshTimers := [], refreshRetryCount := 0,
        isRefreshing := true } 0 := by
  refine ⟨by decide, by decide, by decide, by decide⟩

/-- C2 (amended): while a refresh is in flight, every additional
refreshToken() call issues no network call to /v2/tokens/refresh and
resolves immediately with the token info current at the time of that call;
only the single in-flight invocation issues the one network call. The
joining callers' results are not guaranteed to equal the in-flight
refresh's eventual result. -/
theorem C2_single_flight_refresh (tm : TokenManager) (now : Int)
    (h1 : tm.tokenId.isSome = true) (h2 : tm.accessToken.isSome = true) :
    (tm.isRefreshing = true →
      tm.refreshBegin now = RefreshBegin.alreadyRefreshing (tm.getTokenInfo now) ∧
      tm.refreshNetworkCalls now = 0) ∧
    (tm.isRefreshing = false → tm.refreshNetworkCalls now = 1) := by
  obtain ⟨a, ha⟩ := Option.isSome_iff_exists.mp h1
  obtain ⟨b, hb⟩ := Option.isSome_iff_exists.mp h2
  constructor
  · intro hr
    have hbeg : tm.refreshBegin now =
        RefreshBegin.alreadyRefreshing (tm.getTokenInfo now) := by
      unfold TokenManager.refreshBegin
      rw [ha, hb]
      simp [hr]
    refine ⟨hbeg, ?_⟩
    unfold TokenManager.refreshNetworkCalls
    rw [hbeg]
  · intro hr
    unfold TokenManager.refreshNetworkCalls TokenManager.refreshBegin
    rw [ha, hb]
    simp [hr]

/-- Witness for C2 (amended): a manager with a refresh in flight. -/
theorem C2_single_flight_refresh_witness :
    TokenManager.refreshNetworkCalls
      { autoRefresh := false, refreshBufferSeconds := 60, maxRefreshRetries := 3,
        refreshRetryDelay := 5000, tokenId := Option.some "tok",
        accessToken := Option.some "acc",
        mqttCredentials := Option.some ⟨"u", "p"⟩,
        userEmail := Option.none, provider := Option.none,
        expiresAt := Option.some 1000, refreshRecommendedAt := Option.some 500,
        state := TokenState.refreshing, refreshTimers := [], refreshRetryCount := 0,
        isRefreshing := true } 0 = 0 := by
  exact (C2_single_flight_refresh
    { autoRefresh := false, refreshBufferSeconds := 60, maxRefreshRetries := 3,
      refreshRetryDelay := 5000, tokenId := Option.some "tok",
      accessToken := Option.some "acc",
      mqttCredentials := Option.some ⟨"u", "p"⟩,
      userEmail := Option.none, provider := Option.none,
      expiresAt := Option.some 1000, refreshRecommendedAt := Option.some 500,
      state := TokenState.refreshing, refreshTimers := [], refreshRetryCount := 0,
      isRefreshing := true } 0 rfl rfl).1 rfl |>.2

/-- C3: on every successful token store with autoRefresh enabled, the
manager computes delay = max(0, refreshRecommendedAt - now): a zero delay
invokes refreshToken() immediately, a positive delay arms a single
one-shot timer for that delay, any previously armed refresh timer being
cancelled first so that at most one refresh timer exists afterwards; and
when the armed timer fires the state transitions to expiring, the expiring
callback is invoked with the remaining seconds, and then refreshToken() is
invoked, in that order. -/
theorem C3_refresh_scheduling (tm : TokenManager) (r : TokenResponse) (now : Int)
    (hauto : tm.autoRefresh = true) :
    (max 0 (r.refresh_recommended_at - now) = 0 →
      (tm.storeToken r now).2 = ScheduleAction.immediateRefresh) ∧
    (max 0 (r.refresh_recommended_at - now) ≠ 0 →
      (tm.storeToken r now).2 =
        ScheduleAction.timerArmed (max 0 (r.refresh_recommended_at - now)) ∧
      ((tm.storeToken r now).1).refreshTimers =
        [max 0 (r.refresh_recommended_at - now)]) ∧
    ((tm.storeToken r now).1).refreshTimers.length ≤ 1 ∧
    (∀ now2 : Int,
      ((tm.storeToken r now).1).refreshTimerFire now2 =
        Option.some
          ({ (tm.storeToken r now).1 with
               state := TokenState.expiring, refreshTimers := [] },
           [RefreshFireEvent.stateExpiring,
            RefreshFireEvent.expiringCallback (jsRoundDiv (r.expires_at - now2) 1000),
            RefreshFireEvent.refreshInvoked])) := by
  obtain ⟨-, hexp, -, -, -⟩ := storeToken_fst_fields tm r now
  refine ⟨?_, ?_, ?_, ?_⟩
  · intro hz
    have hd : r.refresh_recommended_at ≤ now := by
      by_contra hc
      have : (0 : Int) < r.refresh_recommended_at - now := by omega
      rw [max_eq_right (le_of_lt this)] at hz
      omega
    unfold TokenManager.storeToken TokenManager.scheduleRefresh
      TokenManager.cancelRefresh TokenManager.setState
    simp [hauto, hd]
  · intro hnz
    have hd : ¬r.refresh_recommended_at ≤ now := by
      by_contra hc
      rw [max_eq_left (by omega)] at hnz
      exact hnz rfl
    unfold TokenManager.storeToken TokenManager.scheduleRefresh
      TokenManager.cancelRefresh TokenManager.setState
    simp [hauto, hd]
  · unfold TokenManager.storeToken TokenManager.scheduleRefresh
      TokenManager.cancelRefresh TokenManager.setState
    by_cases hd : r.refresh_recommended_at ≤ now <;> simp [hauto, hd]
  · intro now2
    unfold TokenManager.refreshTimerFire
    rw [hexp]
    simp [TokenManager.setState]

/-- Witness for C3: a store whose refresh-recommended time lies 5000 ms in
the future arms a single 5000 ms timer. -/
theorem C3_refresh_scheduling_witness :
    (TokenManager.storeToken
      { autoRefresh := true, refreshBufferSeconds := 60, maxRefreshRetries := 3,
        refreshRetryDelay := 5000, tokenId := Option.none,
        accessToken := Option.none, mqttCredentials := Option.none,
        userEmail := Option.none, provider := Option.none,
        expiresAt := Option.none, refreshRecommendedAt := Option.none,
        state := TokenState.none, refreshTimers := [9999], refreshRetryCount := 0,
        isRefreshing := false }
      { token_id := "tok", access_token := "acc",
        mqtt_credentials := ⟨"u", "p"⟩, user_email := "e", provider := "native",
        expires_at := 65000, refresh_recommended_at := 5000 } 0).2 =
      ScheduleAction.timerArmed 5000 := by
  exact ((C3_refresh_scheduling
    { autoRefresh := true, refreshBufferSeconds := 60, maxRefreshRetries := 3,
      refreshRetryDelay := 5000, tokenId := Option.none,
      accessToken := Option.none, mqttCredentials := Option.none,
      userEmail := Option.none, provider := Option.none,
      expiresAt := Option.none, refreshRecommendedAt := Option.none,
      state := TokenState.none, refreshTimers := [9999], refreshRetryCount := 0,
      isRefreshing := false }
    { token_id := "tok", access_token := "acc",
      mqtt_credentials := ⟨"u", "p"⟩, user_email := "e", provider := "native",
      expires_at := 65000, refresh_recommended_at := 5000 } 0 rfl).2.1
    (by decide)).1

/-- Shape of a failing refresh episode while the retry budget still covers
every attempt: each of the k failed attempts issues one network call and
schedules a retry after the fixed configured delay; the retry counter
advances by one per failure, the error state is never entered and no
REFRESH_FAILED classification is surfaced. -/
theorem runFailingRefresh_within_budget (k : Nat) :
    ∀ (tm : TokenManager) (now : Int) (a b : String),
      tm.tokenId = Option.some a → tm.accessToken = Option.some b →
      tm.isRefreshing = false →
      tm.refreshRetryCount + k ≤ tm.maxRefreshRetries →
      ∃ tmOut, tm.runFailingRefresh now k =
          (tmOut,
            (List.replicate k
              [EpisodeEvent.networkCall,
               EpisodeEvent.retryDelay tm.refreshRetryDelay]).flatten) ∧
        tmOut.tokenId = Option.some a ∧ tmOut.accessToken = Option.some b ∧
        tmOut.isRefreshing = false ∧
        tmOut.refreshRetryCount = tm.refreshRetryCount + k ∧
        tmOut.maxRefreshRetries = tm.maxRefreshRetries ∧
        tmOut.refreshRetryDelay = tm.refreshRetryDelay ∧
        tmOut.state = (if k = 0 then tm.state else TokenState.refreshing) := by
  induction k with
  | zero =>
    intro tm now a b ht ha hr _
    exact ⟨tm, rfl, ht, ha, hr, rfl, rfl, rfl, rfl⟩
  | succ k ih =>
    intro tm now a b ht ha hr hbudget
    have hlt : tm.refreshRetryCount < tm.maxRefreshRetries := by omega
    have hbeg : tm.refreshBegin now =
        RefreshBegin.started
          (({ tm with isRefreshing := true }).setState TokenState.refreshing) := by
      unfold TokenManager.refreshBegin
      rw [ht, ha]
      simp [hr]
    have hfail :
        (({ tm with isRefreshing := true }).setState TokenState.refreshing).refreshFail =
        RefreshFailStep.retryScheduled
          ({ tm with refreshRetryCount := tm.refreshRetryCount + 1,
                     isRefreshing := false, state := TokenState.refreshing })
          tm.refreshRetryDelay := by
      unfold TokenManager.refreshFail TokenManager.setState
      simp [hlt]
    obtain ⟨tmOut, hrun, h1, h2, h3, h4, h5, h6, h7⟩ :=
      ih { tm with refreshRetryCount := tm.refreshRetryCount + 1,
                   isRefreshing := false, state := TokenState.refreshing }
        now a b ht ha rfl (by simp; omega)
    refine ⟨tmOut, ?_, h1, h2, h3, by simp at h4; omega, by simpa using h5,
      by simpa using h6, ?_⟩
    · show tm.runFailingRefresh now (Nat.succ k) = _
      unfold TokenManager.runFailingRefresh
      simp only [hbeg, hfail, hrun]
      simp [List.replicate_succ]
    · rw [h7]
      by_cases hk : k = 0 <;> simp [hk]

/-- Shape of a failing refresh episode at the attempt that exhausts the
retry budget: the final network call fails with the counter already at the
maximum, the manager transitions to error and surfaces REFRESH_FAILED. -/
theorem runFailingRefresh_exhausts (k : Nat) :
    ∀ (tm : TokenManager) (now : Int) (a b : String),
      tm.tokenId = Option.some a → tm.accessToken = Option.some b →
      tm.isRefreshing = false →
      tm.refreshRetryCount ≤ tm.maxRefreshRetries →
      tm.refreshRetryCount + k = tm.maxRefreshRetries + 1 →
      ∃ tmOut, tm.runFailingRefresh now k =
          (tmOut,
            (List.replicate (k - 1)
              [EpisodeEvent.networkCall,
               EpisodeEvent.retryDelay tm.refreshRetryDelay]).flatten ++
            [EpisodeEvent.networkCall, EpisodeEvent.refreshFailedSurfaced]) ∧
        tmOut.state = TokenState.error := by
  induction k with
  | zero =>
    intro tm now a b _ _ _ hle hsum
    omega
  | succ k ih =>
    intro tm now a b ht ha hr hle hsum
    have hbeg : tm.refreshBegin now =
        RefreshBegin.started
          (({ tm with isRefreshing := true }).setState TokenState.refreshing) := by
      unfold TokenManager.refreshBegin
      rw [ht, ha]
      simp [hr]
    cases k with
    | zero =>
      have hmax : tm.refreshRetryCount = tm.maxRefreshRetries := by omega
      have hfail :
          (({ tm with isRefreshing := true }).setState TokenState.refreshing).refreshFail =
          RefreshFailStep.refreshFailedSurfaced
            ({ tm with isRefreshing := false, state := TokenState.error }) := by
        unfold TokenManager.refreshFail TokenManager.setState
        simp [hmax]
      refine ⟨{ tm with isRefreshing := false, state := TokenState.error }, ?_, rfl⟩
      show tm.runFailingRefresh now (Nat.succ 0) = _
      unfold TokenManager.runFailingRefresh
      simp only [hbeg, hfail]
      simp
    | succ k' =>
      have hlt : tm.refreshRetryCount < tm.maxRefreshRetries := by omega
      have hfail :
          (({ tm with isRefreshing := true }).setState TokenState.refreshing).refreshFail =
          RefreshFailStep.retryScheduled
            ({ tm with refreshRetryCount := tm.refreshRetryCount + 1,
                       isRefreshing := false, state := TokenState.refreshing })
            tm.refreshRetryDelay := by
        unfold TokenManager.refreshFail TokenManager.setState
        simp [hlt]
      obtain ⟨tmOut, hrun, hstate⟩ :=
        ih { tm with refreshRetryCount := tm.refreshRetryCount + 1,
                     isRefreshing := false, state := TokenState.refreshing }
          now a b ht ha rfl (by simp; omega) (by simp; omega)
      refine ⟨tmOut, ?_, hstate⟩
      show tm.runFailingRefresh now (Nat.succ (Nat.succ k')) = _
      unfold TokenManager.runFailingRefresh
      simp only [hbeg, hfail, hrun]
      simp [List.replicate_succ]

/-- C8: when the refresh network call fails, refreshToken() retries up to
maxRefreshRetries times with the fixed refreshRetryDelay between attempts;
while the budget is not exhausted the state never becomes error and no
REFRESH_FAILED classification is surfaced and every scheduled delay equals
refreshRetryDelay; the attempt that exhausts the budget transitions the
state to error and surfaces REFRESH_FAILED, after exactly
maxRefreshRetries + 1 failed network calls. -/
theorem C8_refresh_retry_exhaustion (tm : TokenManager) (now : Int) (a b : String)
    (ht : tm.tokenId = Option.some a) (ha : tm.accessToken = Option.some b)
    (hr : tm.isRefreshing = false) (hc : tm.refreshRetryCount = 0)
    (hs : tm.state ≠ TokenState.error) :
    (∀ k, k ≤ tm.maxRefreshRetries →
      (tm.runFailingRefresh now k).1.state ≠ TokenState.error ∧
      EpisodeEvent.refreshFailedSurfaced ∉ (tm.runFailingRefresh now k).2 ∧
      (∀ d, EpisodeEvent.retryDelay d ∈ (tm.runFailingRefresh now k).2 →
        d = tm.refreshRetryDelay)) ∧
    (tm.runFailingRefresh now (tm.maxRefreshRetries + 1)).1.state =
      TokenState.error ∧
    (tm.runFailingRefresh now (tm.maxRefreshRetries + 1)).2 =
      (List.replicate tm.maxRefreshRetries
        [EpisodeEvent.networkCall,
         EpisodeEvent.retryDelay tm.refreshRetryDelay]).flatten ++
      [EpisodeEvent.networkCall, EpisodeEvent.refreshFailedSurfaced] := by
  refine ⟨?_, ?_⟩
  · intro k hk
    obtain ⟨tmOut, hrun, -, -, -, -, -, -, hstate⟩ :=
      runFailingRefresh_within_budget k tm now a b ht ha hr (by omega)
    rw [hrun]
    refine ⟨?_, ?_, ?_⟩
    · simp only [hstate]
      by_cases hkz : k = 0 <;> simp [hkz, hs]
    · simp [List.mem_flatten, List.mem_replicate]
    · intro d hd
      simp only [List.mem_flatten] at hd
      obtain ⟨l, hl, hdl⟩ := hd
      rw [List.eq_of_mem_replicate hl] at hdl
      simp at hdl
      exact hdl
  · obtain ⟨tmOut, hrun, hstate⟩ :=
      runFailingRefresh_exhausts (tm.maxRefreshRetries + 1) tm now a b ht ha hr
        (by omega) (by omega)
    rw [hrun]
    simp [hstate]

/-- Witness for C8 at a concrete manager with maxRefreshRetries = 2: the
third failed network call (after 2 retries) surfaces the error state. -/
theorem C8_refresh_retry_exhaustion_witness :
    (TokenManager.runFailingRefresh
      { autoRefresh := false, refreshBufferSeconds := 60, maxRefreshRetries := 2,
        refreshRetryDelay := 5000, tokenId := Option.some "tok",
        accessToken := Option.some "acc",
        mqttCredentials := Option.some ⟨"u", "p"⟩,
        userEmail := Option.none, provider := Option.none,
        expiresAt := Option.some 1000, refreshRecommendedAt := Option.some 500,
        state := TokenState.valid, refreshTimers := [], refreshRetryCount := 0,
        isRefreshing := false } 0 3).1.state = TokenState.error := by
  exact (C8_refresh_retry_exhaustion
    { autoRefresh := false, refreshBufferSeconds := 60, maxRefreshRetries := 2,
      refreshRetryDelay := 5000, tokenId := Option.some "tok",
      accessToken := Option.some "acc",
      mqttCredentials := Option.some ⟨"u", "p"⟩,
      userEmail := Option.none, provider := Option.none,
      expiresAt := Option.some 1000, refreshRecommendedAt := Option.some 500,
      state := TokenState.valid, refreshTimers := [], refreshRetryCount := 0,
      isRefreshing := false } 0 "tok" "acc" rfl rfl rfl rfl (by decide)).2.1

/-- Reconnect loop of a transport that has been force-closed with
end(true): no further attempt is ever issued. -/
theorem runReconnects_ended (n : Nat) :
    ∀ t : Transport, t.ended = true → t.runReconnects n = t := by
  induction n with
  | zero =>
    intro t _
    rfl
  | succ n ih =>
    intro t h
    show t.reconnectStep.runReconnects n = t
    have hstep : t.reconnectStep = t := by
      unfold Transport.reconnectStep
      simp [h]
    rw [hstep]
    exact ih t h

/-- C4: when the transport reports an error whose message matches a known
bad-credentials signature and reconnectOnAuthError is false, the error
handler force-closes the transport, transitions the connection state to
error, invokes the dedicated onAuthError callback (and not the generic
rejection), and rejects the connect promise with the
authentication-failure error; the force-closed transport issues no further
reconnect attempt, so at most one further connection attempt (one already
in flight) can follow the first auth error. -/
theorem C4_auth_error_short_circuit (msg : String) (prevState : ConnectionState)
    (code : Bool) (t : Transport) (n : Nat)
    (hmsg : isAuthErrorMessage msg = true) :
    (onErrorEvent false prevState msg code).connectionState = ConnectionState.error ∧
    (onErrorEvent false prevState msg code).forcedClose = true ∧
    (onErrorEvent false prevState msg code).authCallbackInvoked = true ∧
    (onErrorEvent false prevState msg code).rejectedWithAuthFailure = true ∧
    (onErrorEvent false prevState msg code).rejectedGeneric = false ∧
    ((t.applyError (onErrorEvent false prevState msg code)).runReconnects n).reconnectAttempts =
      t.reconnectAttempts := by
  have hr : onErrorEvent false prevState msg code =
      { connectionState := ConnectionState.error, forcedClose := true,
        authCallbackInvoked := true, rejectedWithAuthFailure := true,
        rejectedGeneric := false } := by
    unfold onErrorEvent
    simp [hmsg]
  rw [hr]
  refine ⟨rfl, rfl, rfl, rfl, rfl, ?_⟩
  have happ : t.applyError
      { connectionState := ConnectionState.error, forcedClose := true,
        authCallbackInvoked := true, rejectedWithAuthFailure := true,
        rejectedGeneric := false } = { t with ended := true } := by
    unfold Transport.applyError
    simp
  rw [happ, runReconnects_ended n { t with ended := true } rfl]

/-- Witness for C4: the broker's bad-credentials CONNACK message stops the
retry loop of a transport that was about to keep attempting. -/
theorem C4_auth_error_short_circuit_witness :
    (onErrorEvent false ConnectionState.connecting
      "Connection refused: Bad username or password" false).forcedClose = true ∧
    ((Transport.applyError { ended := false, reconnectAttempts := 1 }
        (onErrorEvent false ConnectionState.connecting
          "Connection refused: Bad username or password" false)).runReconnects
      5).reconnectAttempts = 1 := by
  have h := C4_auth_error_short_circuit
    "Connection refused: Bad username or password" ConnectionState.connecting
    false { ended := false, reconnectAttempts := 1 } 5 (by decide)
  exact ⟨h.2.1, h.2.2.2.2.2⟩

/-- While the queue never reaches capacity, offline transmits append in
FIFO order. -/
theorem transmitAllOffline_no_overflow (cfg : OfflineConfig) :
    ∀ (ms q : List QueuedMessage), cfg.enableOfflineQueue = true →
      q.length + ms.length ≤ cfg.maxOfflineQueueSize →
      transmitAllOffline cfg q ms = q ++ ms := by
  intro ms
  induction ms with
  | nil =>
    intro q _ _
    simp [transmitAllOffline]
  | cons m ms ih =>
    intro q hen hlen
    have hq : ¬(0 < cfg.maxOfflineQueueSize ∧ cfg.maxOfflineQueueSize ≤ q.length) := by
      simp only [List.length_cons] at hlen
      omega
    have hstep : transmitOffline cfg q m = q ++ [m] := by
      unfold transmitOffline
      simp [hen, hq]
    show transmitAllOffline cfg q (m :: ms) = q ++ m :: ms
    unfold transmitAllOffline
    simp only [List.foldl_cons]
    have := ih (q ++ [m]) hen (by simp at hlen ⊢; omega)
    unfold transmitAllOffline at this
    rw [hstep, this]
    simp

/-- C5: while disconnected with the offline queue enabled and capacity
N > 0, publishing N+1 messages leaves exactly the last N queued in their
original relative order when dropOldestOnQueueFull is set, and the first N
with the (N+1)th discarded when it is not; and one offline transmit never
grows a within-capacity queue beyond N. -/
theorem C5_offline_queue_overflow (cfg : OfflineConfig) (msgs : List QueuedMessage)
    (hen : cfg.enableOfflineQueue = true) (hpos : 0 < cfg.maxOfflineQueueSize)
    (hlen : msgs.length = cfg.maxOfflineQueueSize + 1) :
    (cfg.dropOldestOnQueueFull = true →
      transmitAllOffline cfg [] msgs = msgs.drop 1) ∧
    (cfg.dropOldestOnQueueFull = false →
      transmitAllOffline cfg [] msgs = msgs.take cfg.maxOfflineQueueSize) ∧
    (∀ (q : List QueuedMessage) (m : QueuedMessage),
      q.length ≤ cfg.maxOfflineQueueSize →
      (transmitOffline cfg q m).length ≤ cfg.maxOfflineQueueSize) := by
  have hNle : cfg.maxOfflineQueueSize ≤ msgs.length := by omega
  have htake : (msgs.take cfg.maxOfflineQueueSize).length = cfg.maxOfflineQueueSize := by
    simp [List.length_take]
    omega
  obtain ⟨a, ha⟩ : ∃ a, msgs.drop cfg.maxOfflineQueueSize = [a] := by
    rw [← List.length_eq_one]
    simp [List.length_drop]
    omega
  have hsplit : msgs = msgs.take cfg.maxOfflineQueueSize ++ [a] := by
    conv_lhs => rw [← List.take_append_drop cfg.maxOfflineQueueSize msgs]
    rw [ha]
  have hfirst : transmitAllOffline cfg [] (msgs.take cfg.maxOfflineQueueSize) =
      msgs.take cfg.maxOfflineQueueSize := by
    have := transmitAllOffline_no_overflow cfg (msgs.take cfg.maxOfflineQueueSize)
      [] hen (by simp [htake])
    simpa using this
  have hfold : transmitAllOffline cfg [] msgs =
      transmitOffline cfg (msgs.take cfg.maxOfflineQueueSize) a := by
    conv_lhs => rw [hsplit]
    unfold transmitAllOffline
    rw [List.foldl_append]
    unfold transmitAllOffline at hfirst
    rw [hfirst]
    rfl
  have hguard : 0 < cfg.maxOfflineQueueSize ∧
      cfg.maxOfflineQueueSize ≤ (msgs.take cfg.maxOfflineQueueSize).length := by
    constructor
    · exact hpos
    · omega
  refine ⟨?_, ?_, ?_⟩
  · intro hdrop
    have hstep : transmitOffline cfg (msgs.take cfg.maxOfflineQueueSize) a =
        (msgs.take cfg.maxOfflineQueueSize).drop 1 ++ [a] := by
      unfold transmitOffline
      rw [if_pos hen, if_pos hguard, if_pos hdrop]
    rw [hfold, hstep]
    obtain ⟨b, bs, hbs⟩ : ∃ b bs, msgs.take cfg.maxOfflineQueueSize = b :: bs := by
      cases htk : msgs.take cfg.maxOfflineQueueSize with
      | nil =>
        rw [htk] at htake
        simp at htake
        omega
      | cons b bs => exact ⟨b, bs, rfl⟩
    rw [hbs]
    conv_rhs => rw [hsplit, hbs]
    simp
  · intro hkeep
    have hstep : transmitOffline cfg (msgs.take cfg.maxOfflineQueueSize) a =
        msgs.take cfg.maxOfflineQueueSize := by
      unfold transmitOffline
      rw [if_pos hen, if_pos hguard, if_neg (by simp [hkeep])]
    rw [hfold, hstep]
  · intro q m hq
    unfold transmitOffline
    by_cases hg : 0 < cfg.maxOfflineQueueSize ∧ cfg.maxOfflineQueueSize ≤ q.length
    · by_cases hd : cfg.dropOldestOnQueueFull = true
      · simp [hen, hg, hd]
        omega
      · simp [hen, hg, hd, hq]
    · simp [hen, hg]
      omega

/-- Witness for C5 with N = 2: three offline publishes with drop-oldest
keep the last two in order. -/
theorem C5_offline_queue_overflow_witness :
    transmitAllOffline
      { enableOfflineQueue := true, maxOfflineQueueSize := 2,
        dropOldestOnQueueFull := true } []
      [⟨"t", "m1", 0, false⟩, ⟨"t", "m2", 0, false⟩, ⟨"t", "m3", 0, false⟩] =
      [⟨"t", "m2", 0, false⟩, ⟨"t", "m3", 0, false⟩] := by
  exact (C5_offline_queue_overflow
    { enableOfflineQueue := true, maxOfflineQueueSize := 2,
      dropOldestOnQueueFull := true }
    [⟨"t", "m1", 0, false⟩, ⟨"t", "m2", 0, false⟩, ⟨"t", "m3", 0, false⟩]
    rfl (by decide) rfl).1 rfl

/-- C6: subscribe(topic) is idempotent. While connected and not yet
subscribed, the first call issues the protocol-level subscribe at the
resolved QoS (explicit option over the configured default) and the record
entry appears only through the broker's grant; a second call after the
grant resolves immediately as already-subscribed with no protocol call, so
the two consecutive calls issue exactly one protocol call and both resolve
successfully. -/
theorem C6_subscribe_idempotent (s : SubscriptionState) (topic : String)
    (optQos optQos2 : Option Nat) (hasCb : Bool)
    (hconn : s.connected = true)
    (hnotsub : s.subs.any (fun e => e.1 == topic) = false) :
    s.subscribeStart topic optQos =
      SubscribeStartResult.protocolSubscribeIssued (optQos.getD s.defaultSubscribeQos) ∧
    ((s.subscribeGrant topic (optQos.getD s.defaultSubscribeQos) hasCb).subs.any
      (fun e => e.1 == topic) = true) ∧
    ((s.subscribeGrant topic (optQos.getD s.defaultSubscribeQos) hasCb).subscribeStart
        topic optQos2 =
      SubscribeStartResult.resolvedAlreadySubscribed
        (optQos2.getD s.defaultSubscribeQos)) ∧
    protocolCallCount (s.subscribeStart topic optQos) +
      protocolCallCount
        ((s.subscribeGrant topic (optQos.getD s.defaultSubscribeQos) hasCb).subscribeStart
          topic optQos2) = 1 ∧
    resolvesSuccessfully (s.subscribeStart topic optQos) = true ∧
    resolvesSuccessfully
      ((s.subscribeGrant topic (optQos.getD s.defaultSubscribeQos) hasCb).subscribeStart
        topic optQos2) = true := by
  have h1 : s.subscribeStart topic optQos =
      SubscribeStartResult.protocolSubscribeIssued (optQos.getD s.defaultSubscribeQos) := by
    unfold SubscriptionState.subscribeStart
    simp [hconn, hnotsub]
  have hmem : (s.subscribeGrant topic (optQos.getD s.defaultSubscribeQos) hasCb).subs.any
      (fun e => e.1 == topic) = true := by
    unfold SubscriptionState.subscribeGrant
    simp
  have h2 : (s.subscribeGrant topic (optQos.getD s.defaultSubscribeQos) hasCb).subscribeStart
      topic optQos2 =
      SubscribeStartResult.resolvedAlreadySubscribed (optQos2.getD s.defaultSubscribeQos) := by
    unfold SubscriptionState.subscribeStart SubscriptionState.subscribeGrant
    simp [hconn]
  refine ⟨h1, hmem, h2, ?_, ?_, ?_⟩
  · rw [h1, h2]
    rfl
  · rw [h1]
    rfl
  · rw [h2]
    rfl

/-- Witness for C6 at a concrete connected client with an empty record. -/
theorem C6_subscribe_idempotent_witness :
    SubscriptionState.subscribeStart
      { connected := true, defaultSubscribeQos := 1, subs := [] } "a/b"
      Option.none =
      SubscribeStartResult.protocolSubscribeIssued 1 ∧
    SubscriptionState.subscribeStart
      (SubscriptionState.subscribeGrant
        { connected := true, defaultSubscribeQos := 1, subs := [] } "a/b" 1 false)
      "a/b" Option.none =
      SubscribeStartResult.resolvedAlreadySubscribed 1 := by
  have h := C6_subscribe_idempotent
    { connected := true, defaultSubscribeQos := 1, subs := [] } "a/b"
    Option.none Option.none false rfl rfl
  exact ⟨h.1, h.2.2.1⟩

/-- C9: every inbound message is offered to the request/response
correlator before any application listener: when the correlator claims it
(handleMessage returns true) no per-topic callback and no global callback
receives it; otherwise the per-topic callback (when one is registered for
the topic) and then every global callback receive it, in that order. -/
theorem C9_correlator_first (c : ClientDispatch) (m : InboundMessage) (h : Handler)
    (hrh : c.requestHandler = Option.some h) :
    ((h.handleMessage m).1 = true →
      c.handleMessage m =
        (true, [], { c with requestHandler := Option.some (h.handleMessage m).2 })) ∧
    ((h.handleMessage m).1 = false →
      c.handleMessage m =
        (false,
          (if m.topic ∈ c.topicCallbackTopics then [Delivery.topicCallback m.topic] else [])
            ++ (List.range c.globalCallbackCount).map Delivery.globalCallback,
          { c with requestHandler := Option.some (h.handleMessage m).2 })) := by
  constructor
  · intro hcl
    unfold ClientDispatch.handleMessage
    rw [hrh]
    simp [hcl]
  · intro hcl
    unfold ClientDispatch.handleMessage
    rw [hrh]
    simp [hcl, ClientDispatch.appDeliveries]

/-- Witness for C9: a correlated reply on the reply topic is claimed and
reaches no listener, even though a per-topic callback and a global
callback are registered. -/
theorem C9_correlator_first_witness :
    ClientDispatch.handleMessage
      { requestHandler := Option.some
          { responseTopic := "response/c1", requestTimeout := 30000,
            pending := [⟨"req_1", "svc/echo", 0⟩], armedTimers := ["req_1"],
            outcomes := [], statsRequestsSent := 1, statsResponsesReceived := 0,
            statsTimeouts := 0 },
        topicCallbackTopics := ["response/c1"], globalCallbackCount := 1 }
      { topic := "response/c1", props := ⟨"req_1", ""⟩,
        payloadCorrelationId := "" } =
      (true, [],
        { requestHandler := Option.some
            { responseTopic := "response/c1", requestTimeout := 30000,
              pending := [], armedTimers := [],
              outcomes := [Outcome.resolved "req_1"], statsRequestsSent := 1,
              statsResponsesReceived := 1, statsTimeouts := 0 },
          topicCallbackTopics := ["response/c1"], globalCallbackCount := 1 }) := by
  have h := C9_correlator_first
    { requestHandler := Option.some
        { responseTopic := "response/c1", requestTimeout := 30000,
          pending := [⟨"req_1", "svc/echo", 0⟩], armedTimers := ["req_1"],
          outcomes := [], statsRequestsSent := 1, statsResponsesReceived := 0,
          statsTimeouts := 0 },
      topicCallbackTopics := ["response/c1"], globalCallbackCount := 1 }
    { topic := "response/c1", props := ⟨"req_1", ""⟩, payloadCorrelationId := "" }
    { responseTopic := "response/c1", requestTimeout := 30000,
      pending := [⟨"req_1", "svc/echo", 0⟩], armedTimers := ["req_1"],
      outcomes := [], statsRequestsSent := 1, statsResponsesReceived := 0,
      statsTimeouts := 0 } rfl
  have hc := h.1 (by decide)
  rw [hc]
  decide

/-- Deleting a key from the pendingRequests map leaves no entry for it. -/
theorem pendingCount_remove_self (l : List PendingRequest) (cid : String) :
    ((l.filter (fun p => p.correlationId ≠ cid)).filter
      (fun p => p.correlationId == cid)).length = 0 := by
  rw [← List.countP_eq_length_filter, List.countP_filter, List.countP_eq_zero]
  intro a _
  simp only [Bool.and_eq_true, beq_iff_eq, ne_eq, decide_eq_true_eq, not_and]
  intro h1 h2
  exact h2 h1

/-- Deleting one key from the pendingRequests map leaves the entry count of
every other key unchanged. -/
theorem pendingCount_remove_other (l : List PendingRequest) (cid c' : String)
    (hne : c' ≠ cid) :
    ((l.filter (fun p => p.correlationId ≠ c')).filter
      (fun p => p.correlationId == cid)).length =
    (l.filter (fun p => p.correlationId == cid)).length := by
  rw [← List.countP_eq_length_filter, ← List.countP_eq_length_filter,
    List.countP_filter]
  apply List.countP_congr
  intro x _
  simp only [Bool.and_eq_true, beq_iff_eq, ne_eq, decide_eq_true_eq]
  constructor
  · intro hx
    exact hx.1
  · intro hx
    refine ⟨hx, ?_⟩
    rw [hx]
    intro hcc
    exact hne hcc.symm

/-- Appended settlements change a correlation id's outcome count by one
when they refer to it and by nothing otherwise. -/
theorem outcomeCount_append (l : List Outcome) (o : Outcome) (cid : String) :
    ((l ++ [o]).filter (fun x => outcomeCid x == cid)).length =
    (l.filter (fun x => outcomeCid x == cid)).length +
      (if outcomeCid o = cid then 1 else 0) := by
  by_cases h : outcomeCid o = cid
  · simp [List.filter_append, h]
  · simp [List.filter_append, h]

/-- The bulk-cancel settlements contribute exactly the pending entry count
of each correlation id. -/
theorem outcomeCount_cancelAll_map (l : List PendingRequest) (cid : String) :
    ((l.map (fun p => Outcome.rejectedCancelled p.correlationId)).filter
      (fun x => outcomeCid x == cid)).length =
    (l.filter (fun p => p.correlationId == cid)).length := by
  rw [← List.countP_eq_length_filter, ← List.countP_eq_length_filter,
    List.countP_map]
  apply List.countP_congr
  intro x _
  simp [Function.comp, outcomeCid]

/-- A cleared timer is no longer armed. -/
theorem timers_remove_self (l : List String) (cid : String) :
    cid ∉ l.filter (fun t => t ≠ cid) := by
  intro hmem
  have := (List.mem_filter.mp hmem).2
  simp at this

/-- Clearing another call's timer does not change whether this one is
armed. -/
theorem timers_remove_other (l : List String) (cid c' : String) (hne : c' ≠ cid) :
    cid ∈ l.filter (fun t => t ≠ c') ↔ cid ∈ l := by
  constructor
  · intro hmem
    exact (List.mem_filter.mp hmem).1
  · intro hmem
    refine List.mem_filter.mpr ⟨hmem, ?_⟩
    simp
    exact fun hh => hne hh.symm

/-- The pendingRequests lookup fails exactly when the key has no entry. -/
theorem find?_none_iff_count_zero (l : List PendingRequest) (cid : String) :
    l.find? (fun p => p.correlationId == cid) = Option.none ↔
    (l.filter (fun p => p.correlationId == cid)).length = 0 := by
  rw [List.find?_eq_none, List.length_eq_zero, List.filter_eq_nil_iff]

/-- The pendingRequests existence test succeeds exactly when the key has an
entry. -/
theorem any_key_iff_count_ne_zero (l : List PendingRequest) (cid : String) :
    l.any (fun p => p.correlationId == cid) = true ↔
    (l.filter (fun p => p.correlationId == cid)).length ≠ 0 := by
  rw [List.any_eq_true]
  constructor
  · intro ⟨p, hp, hpc⟩ hlen
    rw [List.length_eq_zero, List.filter_eq_nil_iff] at hlen
    exact hlen p hp hpc
  · intro hlen
    by_contra hno
    push_neg at hno
    apply hlen
    rw [List.length_eq_zero, List.filter_eq_nil_iff]
    intro p hp hpc
    exact hno p hp hpc

/-- The bulk-cancel result state, written out. -/
theorem cancelAll_snd (h : Handler) :
    h.cancelAllRequests.2 = { h with
      armedTimers := h.armedTimers.filter
        (fun t => !(h.pending.any (fun p => p.correlationId == t)))
      pending := []
      outcomes := h.outcomes ++
        h.pending.map (fun p => Outcome.rejectedCancelled p.correlationId) } := rfl

/-- Case analysis of handleMessage: either it leaves the handler alone and
returns false (no extractable id, or no matching pending call), or it
claims the message, deleting the matching entry, clearing its timer and
resolving it. -/
theorem handleMessage_characterization (h : Handler) (m : InboundMessage) :
    ((h.extractCorrelationId m = "" ∨
      h.pending.find? (fun p => p.correlationId == h.extractCorrelationId m) =
        Option.none) ∧
      h.handleMessage m = (false, h)) ∨
    (h.extractCorrelationId m ≠ "" ∧
      (h.pending.filter
        (fun p => p.correlationId == h.extractCorrelationId m)).length ≠ 0 ∧
      h.handleMessage m = (true,
        { h with
          armedTimers := h.armedTimers.filter
            (fun t => t ≠ h.extractCorrelationId m)
          pending := h.pending.filter
            (fun p => p.correlationId ≠ h.extractCorrelationId m)
          statsResponsesReceived := h.statsResponsesReceived + 1
          outcomes := h.outcomes ++
            [Outcome.resolved (h.extractCorrelationId m)] })) := by
  by_cases hz : h.extractCorrelationId m = ""
  · left
    refine ⟨Or.inl hz, ?_⟩
    unfold Handler.handleMessage
    simp [hz]
  · cases hf : h.pending.find? (fun p => p.correlationId == h.extractCorrelationId m) with
    | none =>
      left
      refine ⟨Or.inr rfl, ?_⟩
      unfold Handler.handleMessage
      simp [hz, hf]
    | some p =>
      right
      refine ⟨hz, ?_, ?_⟩
      · intro h0
        rw [(find?_none_iff_count_zero _ _).mpr h0] at hf
        exact Option.noConfusion hf
      · unfold Handler.handleMessage
        simp [hz, hf]

/-- Case analysis of cancelRequest: a no-op returning false on an absent
entry, otherwise the entry is deleted, its timer cleared and the promise
rejected as cancelled. -/
theorem cancelRequest_characterization (h : Handler) (c' : String) :
    ((h.pending.filter (fun p => p.correlationId == c')).length = 0 ∧
      h.cancelRequest c' = (false, h)) ∨
    ((h.pending.filter (fun p => p.correlationId == c')).length ≠ 0 ∧
      h.cancelRequest c' = (true,
        { h with
          armedTimers := h.armedTimers.filter (fun t => t ≠ c')
          pending := h.pending.filter (fun p => p.correlationId ≠ c')
          outcomes := h.outcomes ++ [Outcome.rejectedCancelled c'] })) := by
  cases hf : h.pending.find? (fun p => p.correlationId == c') with
  | none =>
    left
    refine ⟨(find?_none_iff_count_zero _ _).mp hf, ?_⟩
    unfold Handler.cancelRequest
    simp [hf]
  | some p =>
    right
    refine ⟨?_, ?_⟩
    · intro h0
      rw [(find?_none_iff_count_zero _ _).mpr h0] at hf
      exact Option.noConfusion hf
    · unfold Handler.cancelRequest
      simp [hf]

/-- Case analysis of a timeout-timer firing: a cleared timer never runs; a
fired armed timer whose call is still pending settles it; a fired armed
timer whose call has already left the map only disarms itself. -/
theorem timeoutFire_characterization (h : Handler) (c' : String) :
    (c' ∉ h.armedTimers ∧ h.timeoutFire c' = h) ∨
    (c' ∈ h.armedTimers ∧
      h.pending.any (fun p => p.correlationId == c') = true ∧
      h.timeoutFire c' = { h with
        armedTimers := h.armedTimers.filter (fun t => t ≠ c')
        pending := h.pending.filter (fun p => p.correlationId ≠ c')
        statsTimeouts := h.statsTimeouts + 1
        outcomes := h.outcomes ++ [Outcome.rejectedTimeout c'] }) ∨
    (c' ∈ h.armedTimers ∧
      h.pending.any (fun p => p.correlationId == c') = false ∧
      h.timeoutFire c' =
        { h with armedTimers := h.armedTimers.filter (fun t => t ≠ c') }) := by
  unfold Handler.timeoutFire
  by_cases hmem : c' ∈ h.armedTimers
  · by_cases hany : h.pending.any (fun p => p.correlationId == c') = true
    · right
      left
      refine ⟨hmem, hany, ?_⟩
      simp [hmem, hany]
    · right
      right
      refine ⟨hmem, by simpa using hany, ?_⟩
      simp [hmem, hany]
  · left
    exact ⟨hmem, by simp [hmem]⟩

/-- Settling one call — whichever of the three settle paths runs —
preserves the settlement invariant of every registered call. -/
theorem callInvariant_settle (h : Handler) (cid c' : String) (o : Outcome)
    (hoc : outcomeCid o = c')
    (hsome : (h.pending.filter (fun p => p.correlationId == c')).length ≠ 0)
    (hinv : h.callInvariant cid) (h' : Handler)
    (hpend : h'.pending = h.pending.filter (fun p => p.correlationId ≠ c'))
    (htim : h'.armedTimers = h.armedTimers.filter (fun t => t ≠ c'))
    (hout : h'.outcomes = h.outcomes ++ [o]) :
    h'.callInvariant cid := by
  unfold Handler.callInvariant Handler.pendingCount Handler.outcomeCount at hinv ⊢
  rw [hpend, htim, hout]
  by_cases heq : c' = cid
  · subst heq
    rcases hinv with ⟨hp, ht, ho⟩ | ⟨hp, ht, ho⟩
    · right
      refine ⟨pendingCount_remove_self _ _, timers_remove_self _ _, ?_⟩
      rw [outcomeCount_append, ho, hoc]
      simp
    · exact absurd hp hsome
  · rcases hinv with ⟨hp, ht, ho⟩ | ⟨hp, ht, ho⟩
    · left
      refine ⟨?_, ?_, ?_⟩
      · rw [pendingCount_remove_other _ _ _ heq]
        exact hp
      · exact (timers_remove_other _ _ _ heq).mpr ht
      · rw [outcomeCount_append, ho, hoc]
        simp [heq]
    · right
      refine ⟨?_, ?_, ?_⟩
      · rw [pendingCount_remove_other _ _ _ heq]
        exact hp
      · intro hmemf
        exact ht ((timers_remove_other _ _ _ heq).mp hmemf)
      · rw [outcomeCount_append, ho, hoc]
        simp [heq]

/-- An inbound message delivery preserves the settlement invariant. -/
theorem callInvariant_handleMessage (h : Handler) (cid : String) (m : InboundMessage)
    (hinv : h.callInvariant cid) : ((h.handleMessage m).2).callInvariant cid := by
  rcases handleMessage_characterization h m with ⟨-, heq⟩ | ⟨-, hsome, heq⟩
  · rw [heq]
    exact hinv
  · rw [heq]
    exact callInvariant_settle h cid (h.extractCorrelationId m)
      (Outcome.resolved (h.extractCorrelationId m)) rfl hsome hinv _ rfl rfl rfl

/-- An explicit cancellation preserves the settlement invariant. -/
theorem callInvariant_cancelRequest (h : Handler) (cid c' : String)
    (hinv : h.callInvariant cid) : ((h.cancelRequest c').2).callInvariant cid := by
  rcases cancelRequest_characterization h c' with ⟨-, heq⟩ | ⟨hsome, heq⟩
  · rw [heq]
    exact hinv
  · rw [heq]
    exact callInvariant_settle h cid c' (Outcome.rejectedCancelled c') rfl hsome
      hinv _ rfl rfl rfl

/-- A timeout-timer firing preserves the settlement invariant. -/
theorem callInvariant_timeoutFire (h : Handler) (cid c' : String)
    (hinv : h.callInvariant cid) : (h.timeoutFire c').callInvariant cid := by
  rcases timeoutFire_characterization h c' with ⟨-, heq⟩ | ⟨hmem, hany, heq⟩ |
    ⟨hmem, hany, heq⟩
  · rw [heq]
    exact hinv
  · rw [heq]
    refine callInvariant_settle h cid c' (Outcome.rejectedTimeout c') rfl ?_ hinv
      _ rfl rfl rfl
    exact (any_key_iff_count_ne_zero _ _).mp hany
  · rw [heq]
    by_cases heqc : c' = cid
    · subst heqc
      rcases hinv with ⟨hp, ht, ho⟩ | ⟨hp, ht, ho⟩
      · exfalso
        have hany2 : h.pending.any (fun p => p.correlationId == c') = true := by
          apply (any_key_iff_count_ne_zero _ _).mpr
          unfold Handler.pendingCount at hp
          omega
        rw [hany2] at hany
        exact Bool.noConfusion hany
      · exact absurd hmem ht
    · rcases hinv with ⟨hp, ht, ho⟩ | ⟨hp, ht, ho⟩
      · left
        exact ⟨hp, (timers_remove_other _ _ _ heqc).mpr ht, ho⟩
      · right
        exact ⟨hp, fun hmemf => ht ((timers_remove_other _ _ _ heqc).mp hmemf), ho⟩

/-- A bulk cancellation preserves the settlement invariant. -/
theorem callInvariant_cancelAll (h : Handler) (cid : String)
    (hinv : h.callInvariant cid) : (h.cancelAllRequests.2).callInvariant cid := by
  have hpend : (h.cancelAllRequests.2).pending = ([] : List PendingRequest) := rfl
  have htim : (h.cancelAllRequests.2).armedTimers = h.armedTimers.filter
      (fun t => !(h.pending.any (fun p => p.correlationId == t))) := rfl
  have hout : (h.cancelAllRequests.2).outcomes = h.outcomes ++
      h.pending.map (fun p => Outcome.rejectedCancelled p.correlationId) := rfl
  unfold Handler.callInvariant Handler.pendingCount Handler.outcomeCount at hinv ⊢
  rw [hpend, htim, hout]
  rcases hinv with ⟨hp, ht, ho⟩ | ⟨hp, ht, ho⟩
  · right
    refine ⟨by simp, ?_, ?_⟩
    · intro hmemf
      have h2 := (List.mem_filter.mp hmemf).2
      have hany : h.pending.any (fun p => p.correlationId == cid) = true := by
        apply (any_key_iff_count_ne_zero _ _).mpr
        omega
      rw [hany] at h2
      simp at h2
    · rw [List.filter_append, List.length_append, outcomeCount_cancelAll_map,
        ho, hp]
  · right
    refine ⟨by simp, ?_, ?_⟩
    · intro hmemf
      exact ht (List.mem_filter.mp hmemf).1
    · rw [List.filter_append, List.length_append, outcomeCount_cancelAll_map,
        ho, hp]

/-- Every step preserves the settlement invariant of a registered call. -/
theorem callInvariant_applyStep (h : Handler) (cid : String) (s : RRStep)
    (hinv : h.callInvariant cid) : (h.applyStep s).callInvariant cid := by
  cases s with
  | deliver m => exact callInvariant_handleMessage h cid m hinv
  | fireTimeout c => exact callInvariant_timeoutFire h cid c hinv
  | cancel c => exact callInvariant_cancelRequest h cid c hinv
  | cancelAll => exact callInvariant_cancelAll h cid hinv

/-- Runs preserve the settlement invariant. -/
theorem callInvariant_runSteps (steps : List RRStep) :
    ∀ (h : Handler) (cid : String), h.callInvariant cid →
      (h.runSteps steps).callInvariant cid := by
  induction steps with
  | nil =>
    intro h cid hinv
    exact hinv
  | cons s rest ih =>
    intro h cid hinv
    exact ih (h.applyStep s) cid (callInvariant_applyStep h cid s hinv)

/-- Runs decompose over concatenation. -/
theorem runSteps_append (l1 : List RRStep) :
    ∀ (h : Handler) (l2 : List RRStep),
      h.runSteps (l1 ++ l2) = (h.runSteps l1).runSteps l2 := by
  induction l1 with
  | nil =>
    intro h l2
    rfl
  | cons s rest ih =>
    intro h l2
    exact ih (h.applyStep s) l2

/-- No step removes an emitted settlement: the outcome log only grows. -/
theorem outcomeCount_applyStep_ge (h : Handler) (s : RRStep) (cid : String) :
    h.outcomeCount cid ≤ (h.applyStep s).outcomeCount cid := by
  have key : ∀ (h' : Handler) (ext : List Outcome),
      h'.outcomes = h.outcomes ++ ext →
      h.outcomeCount cid ≤ h'.outcomeCount cid := by
    intro h' ext hext
    unfold Handler.outcomeCount
    rw [hext, List.filter_append, List.length_append]
    omega
  cases s with
  | deliver m =>
    rcases handleMessage_characterization h m with ⟨-, heq⟩ | ⟨-, -, heq⟩
    · exact key _ [] (by rw [Handler.applyStep, heq]; simp)
    · exact key _ [Outcome.resolved (h.extractCorrelationId m)]
        (by rw [Handler.applyStep, heq])
  | fireTimeout c =>
    rcases timeoutFire_characterization h c with ⟨-, heq⟩ | ⟨-, -, heq⟩ | ⟨-, -, heq⟩
    · exact key _ [] (by rw [Handler.applyStep, heq]; simp)
    · exact key _ [Outcome.rejectedTimeout c] (by rw [Handler.applyStep, heq])
    · exact key _ [] (by rw [Handler.applyStep, heq]; simp)
  | cancel c =>
    rcases cancelRequest_characterization h c with ⟨-, heq⟩ | ⟨-, heq⟩
    · exact key _ [] (by rw [Handler.applyStep, heq]; simp)
    · exact key _ [Outcome.rejectedCancelled c] (by rw [Handler.applyStep, heq])
  | cancelAll =>
    exact key _ (h.pending.map (fun p => Outcome.rejectedCancelled p.correlationId))
      (by exact rfl)

/-- A settled call stays settled under every further step. -/
theorem callSettled_applyStep (h : Handler) (cid : String) (s : RRStep)
    (hset : h.callSettled cid) : (h.applyStep s).callSettled cid := by
  have hinv := callInvariant_applyStep h cid s (Or.inr hset)
  have hmono := outcomeCount_applyStep_ge h s cid
  rcases hinv with ⟨hp, ht, ho⟩ | hr
  · exfalso
    have h1 : h.outcomeCount cid = 1 := hset.2.2
    omega
  · exact hr

/-- A settled call stays settled over any run. -/
theorem callSettled_runSteps (steps : List RRStep) :
    ∀ (h : Handler) (cid : String), h.callSettled cid →
      (h.runSteps steps).callSettled cid := by
  induction steps with
  | nil =>
    intro h cid hset
    exact hset
  | cons s rest ih =>
    intro h cid hset
    exact ih (h.applyStep s) cid (callSettled_applyStep h cid s hset)

/-- Firing the timeout timer of a registered call settles it (a no-op when
it was already settled). -/
theorem callSettled_fire (h : Handler) (cid : String)
    (hinv : h.callInvariant cid) : (h.timeoutFire cid).callSettled cid := by
  rcases timeoutFire_characterization h cid with ⟨hmem, heq⟩ | ⟨hmem, hany, heq⟩ |
    ⟨hmem, hany, heq⟩
  · rw [heq]
    rcases hinv with ⟨hp, ht, ho⟩ | hr
    · exact absurd ht hmem
    · exact hr
  · rw [heq]
    rcases hinv with ⟨hp, ht, ho⟩ | ⟨hp, ht, ho⟩
    · unfold Handler.outcomeCount at ho
      simp only [Handler.callSettled, Handler.pendingCount, Handler.outcomeCount]
      refine ⟨pendingCount_remove_self _ _, timers_remove_self _ _, ?_⟩
      rw [outcomeCount_append, ho]
      simp [outcomeCid]
    · exfalso
      unfold Handler.pendingCount at hp
      have := (any_key_iff_count_ne_zero h.pending cid).mp hany
      omega
  · rcases hinv with ⟨hp, ht, ho⟩ | ⟨hp, ht, ho⟩
    · exfalso
      have hany2 : h.pending.any (fun p => p.correlationId == cid) = true := by
        apply (any_key_iff_count_ne_zero _ _).mpr
        unfold Handler.pendingCount at hp
        omega
      rw [hany2] at hany
      exact Bool.noConfusion hany
    · exact absurd hmem ht

/-- Registering a fresh call establishes the settlement invariant. -/
theorem callInvariant_register (h : Handler) (cid topic : String) (t0 : Int)
    (hfp : h.pendingCount cid = 0) (_hft : cid ∉ h.armedTimers)
    (hfo : h.outcomeCount cid = 0) :
    (h.registerRequest cid topic t0).callInvariant cid := by
  unfold Handler.callInvariant
  refine Or.inl ⟨?_, ?_, ?_⟩
  · show ((h.pending ++
        [({ correlationId := cid, topic := topic, createdAt := t0 } : PendingRequest)]).filter
      (fun p : PendingRequest => p.correlationId == cid)).length = 1
    unfold Handler.pendingCount at hfp
    rw [List.filter_append, List.length_append, hfp]
    simp
  · show cid ∈ cid :: h.armedTimers
    exact List.mem_cons_self _ _
  · exact hfo

/-- C1: a Pending Call registered by request() is settled at most once
over any sequence of message deliveries, timer firings and cancellations,
and exactly once when its armed one-shot timer is given the chance to fire
(a cleared timer never runs); the entry is in the pending map exactly
until its single settlement is emitted, the timeout timer is armed exactly
while the call is unsettled (so the reply and cancellation paths clear
it), and every settle path is a no-op on an absent entry: an un-armed
timer callback changes nothing, cancelRequest returns false and changes
nothing, and a reply whose correlation id has no pending entry is not
claimed and changes nothing. -/
theorem C1_pending_call_exclusivity (h : Handler) (cid topic : String) (t0 : Int)
    (steps : List RRStep)
    (hfp : h.pendingCount cid = 0) (hft : cid ∉ h.armedTimers)
    (hfo : h.outcomeCount cid = 0) :
    ((h.registerRequest cid topic t0).runSteps steps).outcomeCount cid ≤ 1 ∧
    (RRStep.fireTimeout cid ∈ steps →
      ((h.registerRequest cid topic t0).runSteps steps).outcomeCount cid = 1) ∧
    ((h.registerRequest cid topic t0).runSteps steps).pendingCount cid +
      ((h.registerRequest cid topic t0).runSteps steps).outcomeCount cid = 1 ∧
    (cid ∈ ((h.registerRequest cid topic t0).runSteps steps).armedTimers ↔
      ((h.registerRequest cid topic t0).runSteps steps).outcomeCount cid = 0) ∧
    (∀ g : Handler,
      (cid ∉ g.armedTimers → g.timeoutFire cid = g) ∧
      (g.pendingCount cid = 0 → g.cancelRequest cid = (false, g)) ∧
      (g.pendingCount cid = 0 → ∀ m : InboundMessage,
        g.extractCorrelationId m = cid → g.handleMessage m = (false, g))) := by
  have hreg := callInvariant_register h cid topic t0 hfp hft hfo
  have hrun := callInvariant_runSteps steps _ cid hreg
  refine ⟨?_, ?_, ?_, ?_, ?_⟩
  · rcases hrun with ⟨-, -, ho⟩ | ⟨-, -, ho⟩ <;> omega
  · intro hmem
    obtain ⟨l1, l2, hdecomp⟩ := List.append_of_mem hmem
    subst hdecomp
    rw [runSteps_append]
    have hinv1 := callInvariant_runSteps l1 _ cid hreg
    have hset : (((h.registerRequest cid topic t0).runSteps l1).applyStep
        (RRStep.fireTimeout cid)).callSettled cid :=
      callSettled_fire _ cid hinv1
    have hfinal := callSettled_runSteps l2 _ cid hset
    exact hfinal.2.2
  · rcases hrun with ⟨hp, -, ho⟩ | ⟨hp, -, ho⟩ <;> omega
  · rcases hrun with ⟨-, ht, ho⟩ | ⟨-, ht, ho⟩
    · constructor
      · intro _
        exact ho
      · intro _
        exact ht
    · constructor
      · intro hmem
        exact absurd hmem ht
      · intro h0
        rw [ho] at h0
        exact Nat.noConfusion h0
  · intro g
    refine ⟨?_, ?_, ?_⟩
    · intro hnt
      rcases timeoutFire_characterization g cid with ⟨-, heq⟩ | ⟨hmem, -, -⟩ |
        ⟨hmem, -, -⟩
      · exact heq
      · exact absurd hmem hnt
      · exact absurd hmem hnt
    · intro h0
      rcases cancelRequest_characterization g cid with ⟨-, heq⟩ | ⟨hne, -⟩
      · exact heq
      · unfold Handler.pendingCount at h0
        exact absurd h0 hne
    · intro h0 m hext
      rcases handleMessage_characterization g m with ⟨-, heq⟩ | ⟨-, hne, -⟩
      · exact heq
      · rw [hext] at hne
        unfold Handler.pendingCount at h0
        exact absurd h0 hne

/-- Witness for C1: a freshly registered call whose timer fires is settled
exactly once, by the timeout. -/
theorem C1_pending_call_exclusivity_witness :
    ((Handler.registerRequest
      { responseTopic := "response/c1", requestTimeout := 30000, pending := [],
        armedTimers := [], outcomes := [], statsRequestsSent := 0,
        statsResponsesReceived := 0, statsTimeouts := 0 }
      "req_1" "svc/echo" 0).runSteps
        [RRStep.fireTimeout "req_1"]).outcomeCount "req_1" = 1 := by
  exact (C1_pending_call_exclusivity
    { responseTopic := "response/c1", requestTimeout := 30000, pending := [],
      armedTimers := [], outcomes := [], statsRequestsSent := 0,
      statsResponsesReceived := 0, statsTimeouts := 0 }
    "req_1" "svc/echo" 0 [RRStep.fireTimeout "req_1"] rfl (by decide) rfl).2.1
    (by decide)

end CloudSignal
